import Mathlib

/-!
Shallow embedding of birthday_bot.py and verification of its specification.

The program is a single linear batch job: load contact rows, filter by
birthday match and a (phone, year) dedup store, compose a greeting, send it
via one of two providers, and record the send.  External effects (SQLite,
HTTP, the random generator, the LLM, and wall-clock time) are modelled as
explicit parameters (oracles) threaded through otherwise pure functions.
-/

namespace BirthdayBot

/-- Python truthiness of an optional string: `None` and `""` are falsy. -/
def truthy : Option String → Bool
  | none => false
  | some s => !(s == "")

/-- Python `str.strip()`: drop leading and trailing whitespace. -/
def pyStrip (s : String) : String :=
  String.mk (((s.data.dropWhile Char.isWhitespace).reverse.dropWhile
    Char.isWhitespace).reverse)

/-- One fuel step of Python `str.replace(old, new)` over character lists:
scan left to right, replacing each non-overlapping occurrence of `pat`.
`fuel` bounds the recursion; `fuel = l.length` suffices for a non-empty
`pat` since every step consumes at least one character. -/
def replaceFuel (pat rep : List Char) : Nat → List Char → List Char
  | 0, l => l
  | _ + 1, [] => []
  | fuel + 1, c :: cs =>
    if List.isPrefixOf pat (c :: cs) then
      rep ++ replaceFuel pat rep fuel (List.drop pat.length (c :: cs))
    else c :: replaceFuel pat rep fuel cs

/-- Python `s.replace(pat, rep)` for the non-empty patterns this program
uses. -/
def pyReplace (s pat rep : String) : String :=
  String.mk (replaceFuel pat.data rep.data s.data.length s.data)

/-- Does `s` end with `suffix`?  (Used only to state properties.) -/
def strEndsWith (s suffix : String) : Bool :=
  List.isPrefixOf suffix.data.reverse s.data.reverse

/-- The left-brace character, `Char.ofNat 123`. -/
def lbrace : Char := Char.ofNat 123

/-- The right-brace character, `Char.ofNat 125`. -/
def rbrace : Char := Char.ofNat 125

/-! ### Python `str.format` (single keyword argument `name`)

`generate_personal_message` calls `t.format(name=name)` on the builtin
templates.  We model the fragment of `str.format` the program can reach:
a replacement field is delimited by braces, a doubled brace is an escaped
literal brace, a lone brace is a `ValueError`, a field named anything other
than `name` is a `KeyError`, and the substituted value is inserted verbatim
(it is not re-scanned for braces). -/

/-- A token of a parsed format string: a literal character or a field name. -/
inductive FmtTok where
  | lit (c : Char)
  | field (s : String)
deriving DecidableEq

/-- Scanner for a Python format string.  `inField = true` means we are inside
a replacement field with `acc` holding the field characters read so far (in
reverse).  Returns `none` on a malformed format string (Python raises). -/
def fmtScan : Bool → List Char → List Char → Option (List FmtTok)
  | false, _, [] => some []
  | false, _, c :: cs =>
    if c = lbrace then
      match cs with
      | [] => none
      | c2 :: cs2 =>
        if c2 = lbrace then (fmtScan false [] cs2).map (FmtTok.lit lbrace :: ·)
        else fmtScan true [] (c2 :: cs2)
    else if c = rbrace then
      match cs with
      | [] => none
      | c2 :: cs2 =>
        if c2 = rbrace then (fmtScan false [] cs2).map (FmtTok.lit rbrace :: ·)
        else none
    else
      (fmtScan false [] cs).map (FmtTok.lit c :: ·)
  | true, _, [] => none
  | true, acc, c :: cs =>
    if c = rbrace then (fmtScan false [] cs).map (FmtTok.field (String.mk acc.reverse) :: ·)
    else fmtScan true (c :: acc) cs

/-- Render parsed format tokens with the single keyword argument `name`. -/
def fmtRender (name : String) : List FmtTok → Except String String
  | [] => .ok ""
  | FmtTok.lit c :: ts => (fmtRender name ts).map (fun s => c.toString ++ s)
  | FmtTok.field f :: ts =>
    if f = "name" then (fmtRender name ts).map (fun s => name ++ s)
    else .error "KeyError"

/-- Python `t.format(name=name)`: `.error` models the raised exception. -/
def pyFormat (t : String) (name : String) : Except String String :=
  match fmtScan false [] t.data with
  | none => .error "ValueError"
  | some ts => fmtRender name ts

/-- A token renders without a `KeyError` iff it is a literal or the field
named `name`. -/
def goodTok : FmtTok → Bool
  | FmtTok.lit _ => true
  | FmtTok.field f => f == "name"

/-- A format string is safe when it parses and every field is named `name`:
then `format` succeeds for every substituted value. -/
def fmtSafe (t : String) : Bool :=
  match fmtScan false [] t.data with
  | none => false
  | some ts => ts.all goodTok

/-! ### Dedup store (SQLite table `sent`, PRIMARY KEY (phone, year))

Modelled as an association list from the key `(phone, year)` to the stored
row; `INSERT OR REPLACE` removes any row with the same key. -/

/-- One row of the `sent` table (key columns aside). -/
structure SendRecord where
  sent_at : String
  message : String
deriving DecidableEq

/-- The `sent` table: at most one entry per key once built by `record_send`. -/
abbrev Store := List ((String × Nat) × SendRecord)

/-- `already_sent(conn, phone, year)`: does a row with this key exist? -/
def already_sent (store : Store) (phone : String) (year : Nat) : Bool :=
  store.any fun e => e.1 == (phone, year)

/-- `record_send(conn, phone, year, message)`: `INSERT OR REPLACE` of the row
`(phone, year, sent_at, message)`.  `sent_at` models
`datetime.utcnow().isoformat()` at the moment of the call. -/
def record_send (store : Store) (phone : String) (year : Nat)
    (sent_at message : String) : Store :=
  ((phone, year), ⟨sent_at, message⟩) :: store.filter (fun e => !(e.1 == (phone, year)))

/-- The stored row for a key, if any (first match, as `SELECT ... LIMIT 1`). -/
def lookup_sent (store : Store) (phone : String) (year : Nat) : Option SendRecord :=
  (store.find? (fun e => e.1 == (phone, year))).map (·.2)

/-- Number of rows with the given key, to state the replacement invariant. -/
def countKey (store : Store) (phone : String) (year : Nat) : Nat :=
  (store.filter (fun e => e.1 == (phone, year))).length

/-! ### Message composer (`generate_personal_message`) -/

/-- Ambient state consumed by one call of `generate_personal_message`:
whether OpenAI is configured (key set and library importable), the index the
random generator picks (`random.choice` is modelled as indexing modulo the
list length), and the outcome of the OpenAI call. -/
structure GenEnv where
  openai_ok : Bool
  choice : Nat
  llm : Except Unit String

/-- The three builtin templates of the not-configured path.  The first
contains the source file's literal bytes after `!` (a mojibake sequence). -/
def builtin_templates : List String :=
  ["Happy Birthday, {name}! ðŸŽ‰ Wishing you a fantastic day filled with joy.",
   "Many happy returns, {name}! Hope you have a wonderful birthday.",
   "Happy Birthday {name}! May your day be full of fun and surprises."]

/-- The two fallback templates of the OpenAI-failure path. -/
def fallback_templates : List String :=
  ["Happy Birthday, {name}! ðŸŽ‰ Wishing you a fantastic day filled with joy.",
   "Many happy returns, {name}! Hope you have a wonderful birthday."]

/-- `generate_personal_message(name, notes, template)`.  A `.error` result
models an exception escaping the function (only `str.format` can raise
here); the caller in `main` catches it. -/
def generate_personal_message (env : GenEnv) (name : String)
    (notes template : Option String) : Except String String :=
  if truthy template then
    .ok (pyReplace (template.getD "") "{name}" name)
  else if !env.openai_ok then
    let t := builtin_templates.getD (env.choice % builtin_templates.length) ""
    let t := if truthy notes then t ++ " PS: " ++ notes.getD "" else t
    pyFormat t name
  else
    match env.llm with
    | .ok text => .ok (pyStrip text)
    | .error _ =>
      pyFormat (fallback_templates.getD (env.choice % fallback_templates.length) "") name

/-! ### WhatsApp senders -/

/-- The provider credentials read from the environment at module load. -/
structure ProviderCfg where
  twilio_sid : Option String
  twilio_token : Option String
  twilio_from : Option String
  meta_token : Option String
  meta_phone_id : Option String

/-- `TWILIO_ACCOUNT_SID and TWILIO_AUTH_TOKEN and TWILIO_WHATSAPP_FROM`. -/
def twilio_configured (cfg : ProviderCfg) : Bool :=
  truthy cfg.twilio_sid && truthy cfg.twilio_token && truthy cfg.twilio_from

/-- `META_WABA_TOKEN and META_PHONE_NUMBER_ID`. -/
def meta_configured (cfg : ProviderCfg) : Bool :=
  truthy cfg.meta_token && truthy cfg.meta_phone_id

/-- One outbound HTTP delivery request, carrying recipient and body. -/
inductive Delivery where
  | twilio (phone message : String)
  | meta (phone message : String)
deriving DecidableEq

/-- The network: HTTP status code returned to each adapter for a given
recipient and body. -/
structure Net where
  twilioStatus : String → String → Nat
  metaStatus : String → String → Nat

/-- `send_whatsapp_twilio`: returns the outbound requests made and the
boolean result (success iff status 200 or 201). -/
def send_whatsapp_twilio (cfg : ProviderCfg) (net : Net)
    (phone message : String) : List Delivery × Bool :=
  if twilio_configured cfg then
    ([Delivery.twilio phone message],
     net.twilioStatus phone message == 200 || net.twilioStatus phone message == 201)
  else ([], false)

/-- `send_whatsapp_meta`: returns the outbound requests made and the boolean
result (success iff status 200 or 201). -/
def send_whatsapp_meta (cfg : ProviderCfg) (net : Net)
    (phone message : String) : List Delivery × Bool :=
  if meta_configured cfg then
    ([Delivery.meta phone message],
     net.metaStatus phone message == 200 || net.metaStatus phone message == 201)
  else ([], false)

/-- `send_whatsapp`: prefer Twilio if configured, else Meta, else log an
error and return failure with no delivery attempted. -/
def send_whatsapp (cfg : ProviderCfg) (net : Net)
    (phone message : String) : List Delivery × Bool :=
  if twilio_configured cfg then send_whatsapp_twilio cfg net phone message
  else if meta_configured cfg then send_whatsapp_meta cfg net phone message
  else ([], false)

/-! ### Date utilities -/

/-- A Python `datetime.date` / the date part of a zoned `now`. -/
structure PyDate where
  year : Nat
  month : Nat
  day : Nat
deriving DecidableEq

/-- Wall-clock state of one run: the set of names `pytz.timezone` accepts,
the current date in each accepted zone, and the current UTC date. -/
structure Clock where
  validZones : List String
  localNow : String → PyDate
  utcNow : PyDate

/-- The zone resolution inside `is_birthday_today`: a truthy `tz_name` is
looked up with `pytz.timezone`, whose failure is caught and replaced by UTC;
a falsy `tz_name` means UTC. -/
def resolve_now (clk : Clock) (tz_name : Option String) : PyDate :=
  if truthy tz_name then
    if clk.validZones.contains (tz_name.getD "") then clk.localNow (tz_name.getD "")
    else clk.utcNow
  else clk.utcNow

/-- `is_birthday_today(bday_date, tz_name)`: month/day comparison against
`datetime.now(tz)` in the resolved zone. -/
def is_birthday_today (clk : Clock) (bday_date : PyDate)
    (tz_name : Option String) : Bool :=
  let now := resolve_now clk tz_name
  (bday_date.month == now.month) && (bday_date.day == now.day)

/-- A raw cell value of the `birthday` column as `main` hands it to
`parse_birthday`: missing (`None`/`NaN`), an already-structured
date/timestamp, or a string. -/
inductive RawVal where
  | null
  | dateVal (d : PyDate)
  | strVal (s : String)
deriving DecidableEq

/-- `parse_birthday(bday_value)`.  The pandas string parser is the oracle
`pp`: it returns the parsed date of a parseable string and `none` otherwise
(the code catches the parse exception and returns `None`). -/
def parse_birthday (pp : String → Option PyDate) : RawVal → Option PyDate
  | RawVal.null => none
  | RawVal.dateVal d => some d
  | RawVal.strVal s => pp s

/-! ### Main run -/

/-- One row of the contacts sheet, after column normalization.  Optional
columns are `none` when missing or empty. -/
structure Row where
  name : String
  phone : String
  birthday : RawVal
  timezone : Option String
  notes : Option String
  template : Option String

/-- One entry of `to_send`: `(name, phone, notes, template)` with `name` and
`phone` already stripped. -/
structure Cand where
  name : String
  phone : String
  notes : Option String
  template : Option String
deriving DecidableEq

/-- Ambient state of one run: provider credentials, network, OpenAI
configuration, the random/LLM/clock oracles per loop iteration, and the
per-run cap. -/
structure RunEnv where
  cfg : ProviderCfg
  net : Net
  openai_ok : Bool
  choice : Nat → Nat
  llm : Nat → Except Unit String
  sent_at : Nat → String
  maxPerRun : Nat

/-- A send attempt: one call of `send_whatsapp` from the `Sending` loop. -/
structure Attempt where
  phone : String
  message : String
  success : Bool
deriving DecidableEq

/-- What one run produces: the final store, `sent_count`, the `send_whatsapp`
calls in order, and the outbound HTTP deliveries in order. -/
structure RunResult where
  store : Store
  sent_count : Nat
  attempts : List Attempt
  deliveries : List Delivery
deriving DecidableEq

/-- The `GenEnv` the loop iteration `i` passes to
`generate_personal_message`. -/
def genEnvAt (env : RunEnv) (i : Nat) : GenEnv :=
  ⟨env.openai_ok, env.choice i, env.llm i⟩

/-- The composed message for candidate `c` at loop iteration `i`. -/
def composeOf (env : RunEnv) (i : Nat) (c : Cand) : Except String String :=
  generate_personal_message (genEnvAt env i) c.name c.notes c.template

/-- The `Filtering` stage of `main`: parse the birthday (skip on failure),
test the birthday match, skip contacts already recorded for the run's UTC
year, and accumulate candidates in source row order. -/
def filter_candidates (clk : Clock) (pp : String → Option PyDate)
    (store : Store) (today_year : Nat) (rows : List Row) : List Cand :=
  rows.filterMap fun row =>
    match parse_birthday pp row.birthday with
    | none => none
    | some bday =>
      if is_birthday_today clk bday row.timezone then
        if already_sent store (pyStrip row.phone) today_year then none
        else some ⟨pyStrip row.name, pyStrip row.phone, row.notes, row.template⟩
      else none

/-- The `Sending` stage of `main`: for each candidate compose, send, and on
success record and count; a compose exception is caught and the loop
continues; a failed send is logged and the loop continues. -/
def send_phase (env : RunEnv) (today_year : Nat) :
    Nat → Store → List Cand → RunResult
  | _, store, [] => ⟨store, 0, [], []⟩
  | i, store, c :: rest =>
    match composeOf env i c with
    | .error _ => send_phase env today_year (i + 1) store rest
    | .ok msg =>
      let sw := send_whatsapp env.cfg env.net c.phone msg
      if sw.2 then
        let r := send_phase env today_year (i + 1)
          (record_send store c.phone today_year (env.sent_at i) msg) rest
        ⟨r.store, r.sent_count + 1, ⟨c.phone, msg, true⟩ :: r.attempts,
         sw.1 ++ r.deliveries⟩
      else
        let r := send_phase env today_year (i + 1) store rest
        ⟨r.store, r.sent_count, ⟨c.phone, msg, false⟩ :: r.attempts,
         sw.1 ++ r.deliveries⟩

/-- Every candidate of the list composes without an exception, starting at
loop iteration `i`. -/
def composes_ok (env : RunEnv) : Nat → List Cand → Bool
  | _, [] => true
  | i, c :: rest => (composeOf env i c).isOk && composes_ok env (i + 1) rest

/-- `main`, from the `today_year = datetime.utcnow().year` line on (store
opened, contacts loaded into `rows`, required columns present):
filter to candidates, truncate to `MAX_MESSAGES_PER_RUN`, send. -/
def run_main (env : RunEnv) (clk : Clock) (pp : String → Option PyDate)
    (rows : List Row) (store : Store) : RunResult :=
  let today_year := clk.utcNow.year
  let to_send := filter_candidates clk pp store today_year rows
  send_phase env today_year 0 store (to_send.take env.maxPerRun)

/-! ### Concrete fixtures for witnesses and counterexamples -/

/-- A run clock: UTC date 2024-03-15, one valid zone a day ahead. -/
def wClk : Clock := ⟨["Asia/Kolkata"], fun _ => ⟨2024, 3, 16⟩, ⟨2024, 3, 15⟩⟩

/-- A pandas string-parse oracle recognizing one date string. -/
def wPP : String → Option PyDate :=
  fun s => if s == "1990-03-15" then some ⟨1990, 3, 15⟩ else none

/-- A network accepting Twilio requests (200) and rejecting Meta (404). -/
def wNet : Net := ⟨fun _ _ => 200, fun _ _ => 404⟩

/-- Both providers fully configured. -/
def wCfgBoth : ProviderCfg := ⟨some "sid", some "tok", some "from", some "mtok", some "mid"⟩

/-- Only Meta configured. -/
def wCfgMeta : ProviderCfg := ⟨none, none, none, some "mtok", some "mid"⟩

/-- Neither provider configured (one Twilio field present but empty). -/
def wCfgNone : ProviderCfg := ⟨none, none, some "", none, none⟩

/-- A run environment: both providers, no OpenAI, choice index 1, cap 200. -/
def wEnv : RunEnv :=
  ⟨wCfgBoth, wNet, false, fun _ => 1, fun _ => Except.error (), fun _ => "ts", 200⟩

/-- A run environment without any provider configured. -/
def wEnvNone : RunEnv :=
  ⟨wCfgNone, wNet, false, fun _ => 1, fun _ => Except.error (), fun _ => "ts", 200⟩

/-- A run environment with cap 2. -/
def wEnvCap : RunEnv :=
  ⟨wCfgBoth, wNet, false, fun _ => 1, fun _ => Except.error (), fun _ => "ts", 2⟩

/-- A run environment with cap 1, used to exercise the cap. -/
def cexEnv : RunEnv :=
  ⟨wCfgBoth, wNet, false, fun _ => 1, fun _ => Except.error (), fun _ => "ts", 1⟩

/-- A store that already holds a record for ("+1555", 2024). -/
def wStore : Store := [(("+1555", 2024), ⟨"2024-03-15T00:00:00", "old"⟩)]

/-- A contact whose birthday matches the run date and whose phone is the
already-recorded "+1555". -/
def wRowDup : Row := ⟨"Ann", "+1555", RawVal.dateVal ⟨1990, 3, 15⟩, none, none, none⟩

/-- A contact with an unparseable birthday string. -/
def wRowBad : Row := ⟨"Zed", "+9", RawVal.strVal "not-a-date", none, none, none⟩

/-- A plain matching contact. -/
def wRow1 : Row := ⟨"Ana", "+1", RawVal.dateVal ⟨1990, 3, 15⟩, none, none, none⟩

/-- Three matching contacts, in source row order. -/
def wRows3 : List Row :=
  [⟨"Ana", "+1", RawVal.dateVal ⟨1990, 3, 15⟩, none, none, none⟩,
   ⟨"Ben", "+2", RawVal.dateVal ⟨1985, 3, 15⟩, none, none, none⟩,
   ⟨"Cal", "+3", RawVal.dateVal ⟨1970, 3, 15⟩, none, none, none⟩]

/-- Two matching contacts; the first has a lone brace in its notes, so its
composition raises inside `str.format`. -/
def cexRows : List Row :=
  [⟨"Ana", "+1", RawVal.dateVal ⟨1990, 3, 15⟩, none, some "\x7b", none⟩,
   ⟨"Ben", "+2", RawVal.dateVal ⟨1985, 3, 15⟩, none, none, none⟩]

/-- A candidate whose row carries a template. -/
def wCandT : Cand := ⟨"Al", "+1", none, some "Yo {name}!"⟩

/-- A candidate whose notes contain a lone brace: composing raises. -/
def wCandBad : Cand := ⟨"Al", "+1", some "\x7b", none⟩

/-! ### Helper lemmas -/

instance {α β : Type} [DecidableEq α] [DecidableEq β] : DecidableEq (Except α β) := fun a b =>
  match a, b with
  | Except.ok x, Except.ok y =>
    if h : x = y then Decidable.isTrue (by rw [h])
    else Decidable.isFalse (fun hc => h (by cases hc; rfl))
  | Except.error x, Except.error y =>
    if h : x = y then Decidable.isTrue (by rw [h])
    else Decidable.isFalse (fun hc => h (by cases hc; rfl))
  | Except.ok _, Except.error _ => Decidable.isFalse (fun hc => by cases hc)
  | Except.error _, Except.ok _ => Decidable.isFalse (fun hc => by cases hc)

theorem fmtRender_ok (name : String) (ts : List FmtTok) (h : ts.all goodTok = true) :
    ∃ s, fmtRender name ts = Except.ok s := by
  induction ts with
  | nil => exact ⟨"", rfl⟩
  | cons tk ts ih =>
    rw [List.all_cons, Bool.and_eq_true] at h
    obtain ⟨s, hs⟩ := ih h.2
    cases tk with
    | lit c => exact ⟨c.toString ++ s, by simp [fmtRender, hs, Except.map]⟩
    | field f =>
      have hf : f = "name" := by simpa [goodTok] using h.1
      exact ⟨name ++ s, by simp [fmtRender, hf, hs, Except.map]⟩

theorem pyFormat_ok_of_safe (t name : String) (h : fmtSafe t = true) :
    (pyFormat t name).isOk = true := by
  unfold fmtSafe at h
  unfold pyFormat
  cases hscan : fmtScan false [] t.data with
  | none => rw [hscan] at h; exact absurd h (by simp)
  | some ts =>
    rw [hscan] at h
    obtain ⟨s, hs⟩ := fmtRender_ok name ts h
    simp [hs, Except.isOk, Except.toBool]

theorem fallback_format_ok (k : Nat) (name : String) :
    (pyFormat (fallback_templates.getD (k % fallback_templates.length) "") name).isOk
      = true := by
  have hlen : fallback_templates.length = 2 := rfl
  rw [hlen]
  rcases Nat.mod_two_eq_zero_or_one k with h | h <;> rw [h] <;>
    exact pyFormat_ok_of_safe _ _ (by decide)

theorem already_sent_record_send (store : Store) (p : String) (y : Nat)
    (t m : String) : already_sent (record_send store p y t m) p y = true := by
  simp [already_sent, record_send]

theorem lookup_sent_record_send (store : Store) (p : String) (y : Nat)
    (t m : String) : lookup_sent (record_send store p y t m) p y = some ⟨t, m⟩ := by
  simp [lookup_sent, record_send, List.find?_cons_of_pos]

theorem countKey_record_send (store : Store) (p : String) (y : Nat)
    (t m : String) : countKey (record_send store p y t m) p y = 1 := by
  simp [countKey, record_send, List.filter_cons, List.filter_filter]

theorem mem_record_send (store : Store) (p : String) (y : Nat) (t m : String)
    (e : (String × Nat) × SendRecord) (h : e ∈ record_send store p y t m) :
    e = ((p, y), ⟨t, m⟩) ∨ e ∈ store := by
  simp only [record_send, List.mem_cons, List.mem_filter] at h
  rcases h with h | h
  · exact Or.inl h
  · exact Or.inr h.1

theorem send_phase_cons_error (env : RunEnv) (year i : Nat) (store : Store)
    (c : Cand) (rest : List Cand) (e : String) (h : composeOf env i c = .error e) :
    send_phase env year i store (c :: rest) = send_phase env year (i + 1) store rest := by
  simp [send_phase, h]

theorem send_phase_cons_ok_false (env : RunEnv) (year i : Nat) (store : Store)
    (c : Cand) (rest : List Cand) (msg : String) (h : composeOf env i c = .ok msg)
    (hs : (send_whatsapp env.cfg env.net c.phone msg).2 = false) :
    send_phase env year i store (c :: rest)
      = ⟨(send_phase env year (i + 1) store rest).store,
         (send_phase env year (i + 1) store rest).sent_count,
         ⟨c.phone, msg, false⟩ :: (send_phase env year (i + 1) store rest).attempts,
         (send_whatsapp env.cfg env.net c.phone msg).1
           ++ (send_phase env year (i + 1) store rest).deliveries⟩ := by
  simp [send_phase, h, hs]

theorem send_phase_cons_ok_true (env : RunEnv) (year i : Nat) (store : Store)
    (c : Cand) (rest : List Cand) (msg : String) (h : composeOf env i c = .ok msg)
    (hs : (send_whatsapp env.cfg env.net c.phone msg).2 = true) :
    send_phase env year i store (c :: rest)
      = ⟨(send_phase env year (i + 1)
            (record_send store c.phone year (env.sent_at i) msg) rest).store,
         (send_phase env year (i + 1)
            (record_send store c.phone year (env.sent_at i) msg) rest).sent_count + 1,
         ⟨c.phone, msg, true⟩ :: (send_phase env year (i + 1)
            (record_send store c.phone year (env.sent_at i) msg) rest).attempts,
         (send_whatsapp env.cfg env.net c.phone msg).1
           ++ (send_phase env year (i + 1)
                (record_send store c.phone year (env.sent_at i) msg) rest).deliveries⟩ := by
  simp [send_phase, h, hs]

theorem send_phase_attempt_mem (env : RunEnv) (year : Nat) (cands : List Cand) :
    ∀ (i : Nat) (store : Store) (a : Attempt),
      a ∈ (send_phase env year i store cands).attempts →
      a.phone ∈ cands.map (fun c => c.phone) := by
  induction cands with
  | nil => intro i store a ha; cases ha
  | cons c rest ih =>
    intro i store a ha
    cases hc : composeOf env i c with
    | error e =>
      rw [send_phase_cons_error env year i store c rest e hc] at ha
      exact List.mem_cons_of_mem _ (ih _ _ _ ha)
    | ok msg =>
      cases hs : (send_whatsapp env.cfg env.net c.phone msg).2 with
      | false =>
        rw [send_phase_cons_ok_false env year i store c rest msg hc hs] at ha
        rcases List.mem_cons.mp ha with h | h
        · rw [h]; exact List.mem_cons_self _ _
        · exact List.mem_cons_of_mem _ (ih _ _ _ h)
      | true =>
        rw [send_phase_cons_ok_true env year i store c rest msg hc hs] at ha
        rcases List.mem_cons.mp ha with h | h
        · rw [h]; exact List.mem_cons_self _ _
        · exact List.mem_cons_of_mem _ (ih _ _ _ h)

theorem send_phase_store_mem (env : RunEnv) (year : Nat) (cands : List Cand) :
    ∀ (i : Nat) (store : Store) (e : (String × Nat) × SendRecord),
      e ∈ (send_phase env year i store cands).store →
      e ∈ store ∨ (e.1.2 = year ∧ e.1.1 ∈ cands.map (fun c => c.phone)) := by
  induction cands with
  | nil => intro i store e he; exact Or.inl he
  | cons c rest ih =>
    intro i store e he
    cases hc : composeOf env i c with
    | error x =>
      rw [send_phase_cons_error env year i store c rest x hc] at he
      rcases ih _ _ _ he with h | ⟨hy, hp⟩
      · exact Or.inl h
      · exact Or.inr ⟨hy, List.mem_cons_of_mem _ hp⟩
    | ok msg =>
      cases hs : (send_whatsapp env.cfg env.net c.phone msg).2 with
      | false =>
        rw [send_phase_cons_ok_false env year i store c rest msg hc hs] at he
        rcases ih _ _ _ he with h | ⟨hy, hp⟩
        · exact Or.inl h
        · exact Or.inr ⟨hy, List.mem_cons_of_mem _ hp⟩
      | true =>
        rw [send_phase_cons_ok_true env year i store c rest msg hc hs] at he
        rcases ih _ _ _ he with h | ⟨hy, hp⟩
        · rcases mem_record_send _ _ _ _ _ _ h with h2 | h2
          · rw [h2]; exact Or.inr ⟨rfl, List.mem_cons_self _ _⟩
          · exact Or.inl h2
        · exact Or.inr ⟨hy, List.mem_cons_of_mem _ hp⟩

theorem send_phase_count (env : RunEnv) (year : Nat) (cands : List Cand) :
    ∀ (i : Nat) (store : Store),
      (send_phase env year i store cands).sent_count
        = (send_phase env year i store cands).attempts.countP (fun a => a.success) := by
  induction cands with
  | nil => intro i store; rfl
  | cons c rest ih =>
    intro i store
    cases hc : composeOf env i c with
    | error e => rw [send_phase_cons_error env year i store c rest e hc]; exact ih _ _
    | ok msg =>
      cases hs : (send_whatsapp env.cfg env.net c.phone msg).2 with
      | false =>
        rw [send_phase_cons_ok_false env year i store c rest msg hc hs]
        simpa using ih _ _
      | true =>
        rw [send_phase_cons_ok_true env year i store c rest msg hc hs]
        simpa using ih _ _

theorem send_phase_attempts_map (env : RunEnv) (year : Nat) (cands : List Cand) :
    ∀ (i : Nat) (store : Store), composes_ok env i cands = true →
      (send_phase env year i store cands).attempts.map (fun a => a.phone)
        = cands.map (fun c => c.phone) := by
  induction cands with
  | nil => intro i store _; rfl
  | cons c rest ih =>
    intro i store h
    rw [composes_ok, Bool.and_eq_true] at h
    cases hc : composeOf env i c with
    | error e => rw [hc] at h; simp [Except.isOk, Except.toBool] at h
    | ok msg =>
      cases hs : (send_whatsapp env.cfg env.net c.phone msg).2 with
      | false =>
        rw [send_phase_cons_ok_false env year i store c rest msg hc hs]
        simpa using ih _ _ h.2
      | true =>
        rw [send_phase_cons_ok_true env year i store c rest msg hc hs]
        simpa using ih _ _ h.2

theorem filter_candidates_not_sent (clk : Clock) (pp : String → Option PyDate)
    (store : Store) (y : Nat) (rows : List Row) (c : Cand)
    (h : c ∈ filter_candidates clk pp store y rows) :
    already_sent store c.phone y = false := by
  simp only [filter_candidates, List.mem_filterMap] at h
  obtain ⟨row, _, hf⟩ := h
  split at hf
  · cases hf
  · split at hf
    · split at hf
      · cases hf
      · rename_i ha
        cases hf
        simpa using ha
    · cases hf

theorem filter_candidates_skip (clk : Clock) (pp : String → Option PyDate)
    (store : Store) (y : Nat) (rows1 rows2 : List Row) (row : Row)
    (h : parse_birthday pp row.birthday = none) :
    filter_candidates clk pp store y (rows1 ++ row :: rows2)
      = filter_candidates clk pp store y (rows1 ++ rows2) := by
  simp [filter_candidates, List.filterMap_append, List.filterMap_cons, h]

theorem run_main_skip_row (env : RunEnv) (clk : Clock)
    (pp : String → Option PyDate) (rows1 rows2 : List Row) (row : Row)
    (store : Store) (h : parse_birthday pp row.birthday = none) :
    run_main env clk pp (rows1 ++ row :: rows2) store
      = run_main env clk pp (rows1 ++ rows2) store := by
  simp only [run_main]
  rw [filter_candidates_skip clk pp store clk.utcNow.year rows1 rows2 row h]

/-! ### Claims -/

/-- Claim C2: after `record_send(phone, year, message)`, `already_sent(phone,
year)` is true and the stored message is exactly the recorded text; a second
record for the same key replaces the prior record (exactly one row remains,
holding the newer message); and in the sending loop a successful send records
precisely the message that was passed to `send_whatsapp`. -/
theorem C2_round_trip (store : Store) (p : String) (y : Nat) (t m t2 m2 : String) :
    already_sent (record_send store p y t m) p y = true
    ∧ lookup_sent (record_send store p y t m) p y = some ⟨t, m⟩
    ∧ countKey (record_send store p y t m) p y = 1
    ∧ countKey (record_send (record_send store p y t m) p y t2 m2) p y = 1
    ∧ lookup_sent (record_send (record_send store p y t m) p y t2 m2) p y = some ⟨t2, m2⟩
    ∧ (∀ (env : RunEnv) (year i : Nat) (c : Cand) (rest : List Cand) (msg : String),
        composeOf env i c = .ok msg →
        (send_whatsapp env.cfg env.net c.phone msg).2 = true →
        (send_phase env year i store (c :: rest)).store
          = (send_phase env year (i + 1)
              (record_send store c.phone year (env.sent_at i) msg) rest).store
        ∧ (send_phase env year i store (c :: rest)).attempts
          = ⟨c.phone, msg, true⟩ :: (send_phase env year (i + 1)
              (record_send store c.phone year (env.sent_at i) msg) rest).attempts) := by
  refine ⟨already_sent_record_send store p y t m,
         lookup_sent_record_send store p y t m,
         countKey_record_send store p y t m,
         countKey_record_send _ p y t2 m2,
         lookup_sent_record_send _ p y t2 m2, ?_⟩
  intro env year i c rest msg h hs
  rw [send_phase_cons_ok_true env year i store c rest msg h hs]
  exact ⟨rfl, rfl⟩

/-- Witness for C2 at concrete inputs: an empty store, key ("+1555", 2024),
and one loop step whose composed message "Yo Al!" is sent successfully. -/
theorem C2_round_trip_witness :
    already_sent (record_send [] "+1555" 2024 "t0" "hello") "+1555" 2024 = true
    ∧ lookup_sent (record_send [] "+1555" 2024 "t0" "hello") "+1555" 2024
      = some ⟨"t0", "hello"⟩
    ∧ countKey (record_send (record_send [] "+1555" 2024 "t0" "hello")
        "+1555" 2024 "t1" "bye") "+1555" 2024 = 1
    ∧ (send_phase wEnv 2024 0 [] [wCandT]).attempts
      = ⟨"+1", "Yo Al!", true⟩ :: (send_phase wEnv 2024 1
          (record_send [] "+1" 2024 "ts" "Yo Al!") []).attempts := by
  have h := C2_round_trip [] "+1555" 2024 "t0" "hello" "t1" "bye"
  exact ⟨h.1, h.2.1, h.2.2.2.1,
    (h.2.2.2.2.2 wEnv 2024 0 wCandT [] "Yo Al!" (by decide) (by decide)).2⟩

/-- Claim C3 counterexample: with OpenAI configured and its call failing, the
fallback does NOT append the non-empty notes as a postscript — the result is
a bare fallback template with the name substituted, while the no-provider
path on the same inputs does append the postscript. -/
theorem C3_counterexample :
    generate_personal_message ⟨true, 1, Except.error ()⟩ "Alice" (some "loves cats") none
      = Except.ok "Many happy returns, Alice! Hope you have a wonderful birthday."
    ∧ strEndsWith "Many happy returns, Alice! Hope you have a wonderful birthday."
        "loves cats" = false
    ∧ generate_personal_message ⟨false, 1, Except.error ()⟩ "Alice" (some "loves cats") none
      = Except.ok
          "Many happy returns, Alice! Hope you have a wonderful birthday. PS: loves cats" := by
  refine ⟨by decide, by decide, by decide⟩

/-- Claim C3 as amended: when no template is given, OpenAI is configured and
its call fails, compose falls back to a builtin greeting template chosen at
random from the two-element fallback set with the name substituted, the
provider error is not propagated (the result is a success), and the notes are
ignored (not appended). -/
theorem C3_provider_failure_fallback (name : String) (notes : Option String) (k : Nat) :
    generate_personal_message ⟨true, k, Except.error ()⟩ name notes none
      = pyFormat (fallback_templates.getD (k % fallback_templates.length) "") name
    ∧ (generate_personal_message ⟨true, k, Except.error ()⟩ name notes none).isOk = true
    ∧ generate_personal_message ⟨true, k, Except.error ()⟩ name notes none
      = generate_personal_message ⟨true, k, Except.error ()⟩ name none none := by
  refine ⟨rfl, ?_, rfl⟩
  exact fallback_format_ok k name

/-- Claim C4: `is_birthday_today` is the month/day comparison of the birth
date against "now" in the resolved zone; an absent zone resolves to UTC; a
present but unrecognized zone silently resolves to UTC; a present valid zone
resolves to that zone; and the birth date's year is ignored. -/
theorem C4_birthday_today (clk : Clock) (bday : PyDate) (tz : Option String) :
    is_birthday_today clk bday tz
      = ((bday.month == (resolve_now clk tz).month)
          && (bday.day == (resolve_now clk tz).day))
    ∧ resolve_now clk none = clk.utcNow
    ∧ (∀ s : String, s ≠ "" → clk.validZones.contains s = false →
        resolve_now clk (some s) = clk.utcNow)
    ∧ (∀ s : String, s ≠ "" → clk.validZones.contains s = true →
        resolve_now clk (some s) = clk.localNow s)
    ∧ (∀ y : Nat, is_birthday_today clk ⟨y, bday.month, bday.day⟩ tz
        = is_birthday_today clk bday tz) := by
  refine ⟨rfl, rfl, ?_, ?_, fun y => rfl⟩
  · intro s hs hc
    have hn : ¬ s ∈ clk.validZones := by simpa using hc
    simp [resolve_now, truthy, hs, hn]
  · intro s hs hc
    have hn : s ∈ clk.validZones := by simpa using hc
    simp [resolve_now, truthy, hs, hn]

/-- Witness for C4: an unrecognized zone name falls back to UTC, a valid zone
is used, both at a concrete clock. -/
theorem C4_birthday_today_witness :
    resolve_now wClk (some "Nope") = wClk.utcNow
    ∧ resolve_now wClk (some "Asia/Kolkata") = wClk.localNow "Asia/Kolkata" := by
  have h := C4_birthday_today wClk ⟨1990, 3, 15⟩ none
  exact ⟨h.2.2.1 "Nope" (by decide) (by decide),
         h.2.2.2.1 "Asia/Kolkata" (by decide) (by decide)⟩

/-- Claim C6: a candidate whose composition raises is skipped with the store,
counter and attempt trace untouched and the loop continuing; a candidate
whose send fails leaves the store and counter untouched (only a failed
attempt is traced) and the loop continues; the success counter always equals
the number of successful attempts. -/
theorem C6_failure_paths (env : RunEnv) (year i : Nat) (store : Store)
    (c : Cand) (rest : List Cand) :
    (∀ e : String, composeOf env i c = .error e →
      send_phase env year i store (c :: rest) = send_phase env year (i + 1) store rest)
    ∧ (∀ msg : String, composeOf env i c = .ok msg →
        (send_whatsapp env.cfg env.net c.phone msg).2 = false →
        (send_phase env year i store (c :: rest)).store
          = (send_phase env year (i + 1) store rest).store
        ∧ (send_phase env year i store (c :: rest)).sent_count
          = (send_phase env year (i + 1) store rest).sent_count
        ∧ (send_phase env year i store (c :: rest)).attempts
          = ⟨c.phone, msg, false⟩ :: (send_phase env year (i + 1) store rest).attempts)
    ∧ (send_phase env year i store (c :: rest)).sent_count
      = ((send_phase env year i store (c :: rest)).attempts.countP
          (fun a => a.success)) := by
  refine ⟨?_, ?_, send_phase_count env year (c :: rest) i store⟩
  · exact fun e h => send_phase_cons_error env year i store c rest e h
  · intro msg h hs
    rw [send_phase_cons_ok_false env year i store c rest msg h hs]
    exact ⟨rfl, rfl, rfl⟩

/-- Witness for C6: a raising composition is skipped entirely; a failed send
(no provider configured) leaves the store unchanged. -/
theorem C6_failure_paths_witness :
    send_phase wEnvNone 2024 0 [] [wCandBad] = send_phase wEnvNone 2024 1 [] []
    ∧ (send_phase wEnvNone 2024 0 [] [wCandT]).store
      = (send_phase wEnvNone 2024 1 [] []).store
    ∧ (send_phase wEnvNone 2024 0 [] [wCandT]).sent_count
      = (send_phase wEnvNone 2024 0 [] [wCandT]).attempts.countP
          (fun a => a.success) := by
  have h1 := C6_failure_paths wEnvNone 2024 0 [] wCandBad []
  have h2 := C6_failure_paths wEnvNone 2024 0 [] wCandT []
  exact ⟨h1.1 "ValueError" (by decide),
         (h2.2.1 "Yo Al!" (by decide) (by decide)).1, h2.2.2⟩

/-- Claim C7: `parse_birthday` returns the date for a structured value,
defers to the string parser for strings, returns `none` on null/unparseable
input (it is a total function into `Option`, so nothing ever escapes to the
caller); and a row whose birthday does not parse is dropped from the
candidates so the whole run is as if the row were absent, regardless of its
other fields. -/
theorem C7_parse_birthday :
    (∀ pp : String → Option PyDate, parse_birthday pp RawVal.null = none)
    ∧ (∀ (pp : String → Option PyDate) (d : PyDate),
        parse_birthday pp (RawVal.dateVal d) = some d)
    ∧ (∀ (pp : String → Option PyDate) (s : String),
        parse_birthday pp (RawVal.strVal s) = pp s)
    ∧ (∀ (env : RunEnv) (clk : Clock) (pp : String → Option PyDate)
        (rows1 rows2 : List Row) (row : Row) (store : Store),
        parse_birthday pp row.birthday = none →
        filter_candidates clk pp store clk.utcNow.year (rows1 ++ row :: rows2)
          = filter_candidates clk pp store clk.utcNow.year (rows1 ++ rows2)
        ∧ run_main env clk pp (rows1 ++ row :: rows2) store
          = run_main env clk pp (rows1 ++ rows2) store) :=
  ⟨fun _ => rfl, fun _ _ => rfl, fun _ _ => rfl,
   fun env clk pp rows1 rows2 row store h =>
     ⟨filter_candidates_skip clk pp store clk.utcNow.year rows1 rows2 row h,
      run_main_skip_row env clk pp rows1 rows2 row store h⟩⟩

/-- Witness for C7: a concrete row with an unparseable birthday string leaves
the whole run unchanged. -/
theorem C7_parse_birthday_witness :
    run_main wEnv wClk wPP ([wRow1] ++ wRowBad :: []) []
      = run_main wEnv wClk wPP ([wRow1] ++ []) [] :=
  (C7_parse_birthday.2.2.2 wEnv wClk wPP [wRow1] [] wRowBad [] (by decide)).2

/-- Claim C8: `send_whatsapp` uses Twilio exclusively whenever its three
credentials are all configured (regardless of Meta's configuration), uses
Meta when only Meta is configured, and with neither configured returns
failure with no outbound delivery. -/
theorem C8_provider_selection (cfg : ProviderCfg) (net : Net) (p m : String) :
    (twilio_configured cfg = true →
      send_whatsapp cfg net p m = send_whatsapp_twilio cfg net p m
      ∧ (send_whatsapp cfg net p m).1 = [Delivery.twilio p m])
    ∧ (twilio_configured cfg = false → meta_configured cfg = true →
      send_whatsapp cfg net p m = send_whatsapp_meta cfg net p m
      ∧ (send_whatsapp cfg net p m).1 = [Delivery.meta p m])
    ∧ (twilio_configured cfg = false → meta_configured cfg = false →
      send_whatsapp cfg net p m = ([], false)) := by
  refine ⟨?_, ?_, ?_⟩
  · intro h
    exact ⟨by simp [send_whatsapp, h],
           by simp [send_whatsapp, send_whatsapp_twilio, h]⟩
  · intro h1 h2
    exact ⟨by simp [send_whatsapp, h1, h2],
           by simp [send_whatsapp, send_whatsapp_meta, h1, h2]⟩
  · intro h1 h2
    simp [send_whatsapp, h1, h2]

/-- Witness for C8: with both providers configured only a Twilio delivery
goes out; with Meta only, a Meta delivery; with neither, failure and no
delivery. -/
theorem C8_provider_selection_witness :
    (send_whatsapp wCfgBoth wNet "+1" "hi").1 = [Delivery.twilio "+1" "hi"]
    ∧ (send_whatsapp wCfgMeta wNet "+1" "hi").1 = [Delivery.meta "+1" "hi"]
    ∧ send_whatsapp wCfgNone wNet "+1" "hi" = ([], false) :=
  ⟨((C8_provider_selection wCfgBoth wNet "+1" "hi").1 (by decide)).2,
   ((C8_provider_selection wCfgMeta wNet "+1" "hi").2.1 (by decide) (by decide)).2,
   (C8_provider_selection wCfgNone wNet "+1" "hi").2.2 (by decide) (by decide)⟩

/-- Claim C9: a non-empty template short-circuits composition: the result is
exactly the template with every occurrence of the literal placeholder
substituted by the name, regardless of the generation environment and of the
notes. -/
theorem C9_template_precedence (env : GenEnv) (name : String)
    (notes : Option String) (t : String) (h : t ≠ "") :
    generate_personal_message env name notes (some t)
      = Except.ok (pyReplace t "{name}" name) := by
  have ht : truthy (some t) = true := by simp [truthy, h]
  simp [generate_personal_message, ht]

/-- Witness for C9 at concrete inputs, with a configured and reachable
provider and non-empty notes; the substitution evaluates to "Yo Alice!". -/
theorem C9_template_precedence_witness :
    ("Yo {name}!" : String) ≠ ""
    ∧ generate_personal_message ⟨true, 0, Except.ok "llm text"⟩ "Alice"
        (some "n") (some "Yo {name}!")
      = Except.ok (pyReplace "Yo {name}!" "{name}" "Alice")
    ∧ pyReplace "Yo {name}!" "{name}" "Alice" = "Yo Alice!" :=
  ⟨by decide,
   C9_template_precedence ⟨true, 0, Except.ok "llm text"⟩ "Alice" (some "n")
     "Yo {name}!" (by decide),
   by decide⟩

/-- Claim C10 (implicit): in the builtin-template path the notes postscript
is appended before `str.format` runs, so the whole concatenation is formatted:
a lone brace in the notes raises a formatting error instead of returning a
greeting, and a literal placeholder inside the notes is itself substituted
with the name. -/
theorem C10_notes_before_format :
    (∀ (name : String) (notes : Option String) (k : Nat), truthy notes = true →
      generate_personal_message ⟨false, k, Except.error ()⟩ name notes none
        = pyFormat ((builtin_templates.getD (k % builtin_templates.length) "")
            ++ " PS: " ++ notes.getD "") name)
    ∧ generate_personal_message ⟨false, 1, Except.error ()⟩ "Bob" (some "\x7b") none
      = Except.error "ValueError"
    ∧ generate_personal_message ⟨false, 1, Except.error ()⟩ "Bob" (some "hi {name}") none
      = Except.ok
          "Many happy returns, Bob! Hope you have a wonderful birthday. PS: hi Bob" := by
  refine ⟨?_, by decide, by decide⟩
  intro name notes k h
  have h0 : truthy (none : Option String) = false := rfl
  simp [generate_personal_message, h, h0]

/-- Witness for C10: the general append-before-format equation at concrete
inputs. -/
theorem C10_notes_before_format_witness :
    truthy (some "meow") = true
    ∧ generate_personal_message ⟨false, 0, Except.error ()⟩ "Ana" (some "meow") none
      = pyFormat ((builtin_templates.getD (0 % builtin_templates.length) "")
          ++ " PS: " ++ (some "meow").getD "") "Ana" :=
  ⟨by decide, C10_notes_before_format.1 "Ana" (some "meow") 0 (by decide)⟩

/-- Claim C1: a phone already recorded in the store for the run's UTC
calendar year appears in no candidate, so no send attempt ever names it and
its store entries are untouched; moreover every record the run adds is keyed
by the run's UTC year (`clk.utcNow.year`), independent of any contact's
timezone column. -/
theorem C1_dedup_excludes (env : RunEnv) (clk : Clock)
    (pp : String → Option PyDate) (rows : List Row) (store : Store) (p : String)
    (h : already_sent store p clk.utcNow.year = true) :
    (∀ c ∈ filter_candidates clk pp store clk.utcNow.year rows, c.phone ≠ p)
    ∧ (∀ a ∈ (run_main env clk pp rows store).attempts, a.phone ≠ p)
    ∧ (∀ e ∈ (run_main env clk pp rows store).store,
        e ∈ store ∨ (e.1.1 ≠ p ∧ e.1.2 = clk.utcNow.year)) := by
  have hc : ∀ c ∈ filter_candidates clk pp store clk.utcNow.year rows,
      c.phone ≠ p := by
    intro c hcm heq
    have hns := filter_candidates_not_sent clk pp store clk.utcNow.year rows c hcm
    rw [heq, h] at hns
    cases hns
  have hphones : ∀ q ∈ ((filter_candidates clk pp store clk.utcNow.year
      rows).take env.maxPerRun).map (fun c => c.phone), q ≠ p := by
    intro q hq
    obtain ⟨c, hcm, hcq⟩ := List.mem_map.mp hq
    rw [← hcq]
    exact hc c (List.take_subset _ _ hcm)
  refine ⟨hc, ?_, ?_⟩
  · intro a ha
    exact hphones a.phone
      (send_phase_attempt_mem env clk.utcNow.year _ 0 store a ha)
  · intro e he
    rcases send_phase_store_mem env clk.utcNow.year _ 0 store e he with h1 | ⟨hy, hp2⟩
    · exact Or.inl h1
    · exact Or.inr ⟨hphones e.1.1 hp2, hy⟩

/-- Witness for C1: the store already holds ("+1555", 2024), the sole contact
matches today with that phone, and it is filtered out with no attempt. -/
theorem C1_dedup_excludes_witness :
    already_sent wStore "+1555" 2024 = true
    ∧ (∀ c ∈ filter_candidates wClk wPP wStore 2024 [wRowDup], c.phone ≠ "+1555")
    ∧ (∀ a ∈ (run_main wEnv wClk wPP [wRowDup] wStore).attempts,
        a.phone ≠ "+1555") := by
  have h := C1_dedup_excludes wEnv wClk wPP [wRowDup] wStore "+1555" (by decide)
  exact ⟨by decide, h.1, h.2.1⟩

/-- Claim C5 counterexample: a run whose two eligible candidates exceed the
cap of one performs zero send attempts, not exactly one, because the first
candidate's composition raises (lone brace in notes) and is skipped. -/
theorem C5_counterexample :
    cexEnv.maxPerRun = 1
    ∧ (filter_candidates wClk wPP [] wClk.utcNow.year cexRows).length = 2
    ∧ (run_main cexEnv wClk wPP cexRows []).attempts.length = 0
    ∧ ¬ (run_main cexEnv wClk wPP cexRows []).attempts.length
        = cexEnv.maxPerRun := by
  refine ⟨rfl, by decide, by decide, by decide⟩

/-- Claim C5 as amended: when the candidate list exceeds the per-run cap and
every capped candidate's composition succeeds, exactly `MAX_MESSAGES_PER_RUN`
send attempts occur, in source row order (the attempt phones are the first
`maxPerRun` candidate phones in order), and every store entry the run adds is
keyed by a capped candidate's phone — candidates beyond the cap are neither
sent to nor recorded. -/
theorem C5_cap_enforcement (env : RunEnv) (clk : Clock)
    (pp : String → Option PyDate) (rows : List Row) (store : Store)
    (hcap : env.maxPerRun
        < (filter_candidates clk pp store clk.utcNow.year rows).length)
    (hok : composes_ok env 0
        ((filter_candidates clk pp store clk.utcNow.year rows).take env.maxPerRun)
        = true) :
    (run_main env clk pp rows store).attempts.length = env.maxPerRun
    ∧ (run_main env clk pp rows store).attempts.map (fun a => a.phone)
      = ((filter_candidates clk pp store clk.utcNow.year rows).take
          env.maxPerRun).map (fun c => c.phone)
    ∧ (∀ e ∈ (run_main env clk pp rows store).store,
        e ∈ store ∨ e.1.1 ∈ ((filter_candidates clk pp store clk.utcNow.year
          rows).take env.maxPerRun).map (fun c => c.phone)) := by
  have hmap := send_phase_attempts_map env clk.utcNow.year
    ((filter_candidates clk pp store clk.utcNow.year rows).take env.maxPerRun)
    0 store hok
  refine ⟨?_, hmap, ?_⟩
  · have hlen := congrArg List.length hmap
    simp only [List.length_map] at hlen
    exact hlen.trans (by rw [List.length_take]
                         exact Nat.min_eq_left (Nat.le_of_lt hcap))
  · intro e he
    rcases send_phase_store_mem env clk.utcNow.year _ 0 store e he with h1 | ⟨_, hp2⟩
    · exact Or.inl h1
    · exact Or.inr hp2

/-- Witness for C5: three eligible candidates, cap two, both capped
compositions succeed: exactly two attempts, in row order. -/
theorem C5_cap_enforcement_witness :
    wEnvCap.maxPerRun < (filter_candidates wClk wPP [] wClk.utcNow.year wRows3).length
    ∧ (run_main wEnvCap wClk wPP wRows3 []).attempts.length = wEnvCap.maxPerRun
    ∧ (run_main wEnvCap wClk wPP wRows3 []).attempts.map (fun a => a.phone)
      = ((filter_candidates wClk wPP [] wClk.utcNow.year wRows3).take
          wEnvCap.maxPerRun).map (fun c => c.phone) := by
  have h := C5_cap_enforcement wEnvCap wClk wPP wRows3 [] (by decide) (by decide)
  exact ⟨by decide, h.1, h.2.1⟩

end BirthdayBot
